import Mathlib

/-!
Verification of the ZerePy "matriarch" agent-lifecycle server.

This file gives a shallow embedding of the lifecycle core of the repository:

* `src/src/matriarch/models/server_state.py` — the legacy registry
  (`ServerState`) and the per-agent supervisor (`AgentController`);
* `src/src/matriarch/models/updated_server_state.py` — the database-backed
  registry revision;
* `src/src/matriarch/models/configuration.py` — `SafeAgentConfig.from_internal`;
* `src/src/database/manager.py` — the `DatabaseManager` lookup/update/delete
  operations the updated registry delegates to.

Python dictionaries are embedded as association lists, in-place object
mutation as explicit state passing, `asyncio` tasks as an `Option Bool` task
reference (`some done` mirrors `self._task` holding a task whose `done()`
flag is `done`), and exceptions as `Except`/`Bool` outcomes.  External
collaborators (`ZerePyAgent(...)`, `create_zerepy_agent_from_db`,
`perform_action`) are oracles passed as parameters: the core never inspects
their internals, only whether they raise.

Real time is abstracted: `stop_agent_loop` receives, besides the `timeout`
argument of the Python function, the environment's answer `exitTime` — the
number of time units after the cancellation signal at which the loop task
actually exits (`none` when it never does).  `asyncio.wait_for(task, timeout)`
succeeds exactly when `exitTime = some t` with `t ≤ timeout`.
-/

namespace ZerePy

/-! ### Agent-name normalization

`ServerState._make_safe_agent_name` in both revisions is
`agent_name.replace(' ', '_').lower()`: first every space becomes an
underscore, then the result is lowercased.  `Char.toLower` (basic-latin
lowercasing) embeds Python's `str.lower` on the character range the
repository uses. -/

/-- Embedding of one character step of Python's `str.replace(' ', '_')`. -/
def replaceSpaceChar (c : Char) : Char :=
  if c = ' ' then '_' else c

/-- Embedding of `ServerState._make_safe_agent_name`:
`agent_name.replace(' ', '_').lower()`. -/
def make_safe_agent_name (s : String) : String :=
  String.mk ((s.data.map replaceSpaceChar).map Char.toLower)

/-- Packing a valid codepoint and unpacking it is the identity. -/
theorem toNat_ofNat_of_valid {n : Nat} (h : n.isValidChar) :
    (Char.ofNat n).toNat = n := by
  rw [Char.ofNat, dif_pos h]
  rfl

/-- Basic-latin lowercasing is idempotent. -/
theorem toLower_idem (c : Char) : c.toLower.toLower = c.toLower := by
  unfold Char.toLower
  by_cases h : c.toNat ≥ 65 ∧ c.toNat ≤ 90
  · rw [if_pos h]
    have hv : (c.toNat + 32).isValidChar := by
      left
      omega
    rw [toNat_ofNat_of_valid hv, if_neg (by omega)]
  · rw [if_neg h, if_neg h]

/-- Lowercasing never produces a space, hence commutes with a later
space-to-underscore pass on an already-replaced character. -/
theorem replaceSpace_toLower_fixed (c : Char) :
    replaceSpaceChar (Char.toLower (replaceSpaceChar c)) =
      Char.toLower (replaceSpaceChar c) := by
  unfold replaceSpaceChar Char.toLower
  by_cases hsp : c = ' '
  · subst hsp
    rfl
  · rw [if_neg hsp]
    by_cases h : c.toNat ≥ 65 ∧ c.toNat ≤ 90
    · rw [if_pos h]
      have hv : (c.toNat + 32).isValidChar := by
        left
        omega
      have hne : Char.ofNat (c.toNat + 32) ≠ ' ' := by
        intro heq
        have hn := toNat_ofNat_of_valid hv
        rw [heq] at hn
        have h32 : (' ' : Char).toNat = 32 := rfl
        rw [h32] at hn
        omega
      rw [if_neg hne]
    · rw [if_neg h, if_neg hsp]

/-! ### AgentController

Both revisions carry byte-for-byte the same controller: a cancellation event
`self._stop_event`, a task slot `self._task : Optional[asyncio.Task]`, and a
lock `self._running_lock` serializing `start_agent_loop` / `stop_agent_loop`
transitions.  The lock makes each transition one atomic step, which is what a
Lean function on `AgentController` is; the state carries the event flag and
the task slot. -/

/-- State of one `AgentController`: `stopEventSet` mirrors
`self._stop_event.is_set()`; `task = none` mirrors `self._task is None` and
`task = some done` a held task reference whose `done()` flag is `done`. -/
structure AgentController where
  stopEventSet : Bool
  task : Option Bool
deriving DecidableEq, Repr

/-- A freshly constructed controller: `asyncio.Event()` starts clear and
`self._task = None`. -/
def AgentController.init : AgentController :=
  { stopEventSet := false, task := none }

/-- Embedding of `AgentController.is_running`:
`self._task is not None and not self._task.done()`. -/
def is_running (c : AgentController) : Bool :=
  match c.task with
  | none => false
  | some done => !done

/-- Embedding of `AgentController.start_agent_loop`.  Under
`self._running_lock` it raises `ValueError` when `is_running()`, else clears
the stop event and creates the loop task (freshly created tasks are pending,
so their `done()` flag is `false`). -/
def start_agent_loop (c : AgentController) : Except String AgentController :=
  if is_running c then
    .error "already running"
  else
    .ok { stopEventSet := false, task := some false }

/-- Embedding of `AgentController.stop_agent_loop(timeout)`.  Under the lock
it returns `True` at once when not running; otherwise it sets the stop event
and awaits the task for up to `timeout`.  When the task exits in time
(`exitTime = some t`, `t ≤ timeout`) its `finally` block clears `self._task`,
so the final re-check returns `True`; on `asyncio.TimeoutError` the function
returns `False` with the task reference left in place. -/
def stop_agent_loop (c : AgentController) (timeout : Nat) (exitTime : Option Nat) :
    AgentController × Bool :=
  if is_running c then
    let c₁ : AgentController := { c with stopEventSet := true }
    match exitTime with
    | some t =>
      if t ≤ timeout then
        ({ c₁ with task := none }, true)
      else
        (c₁, false)
    | none => (c₁, false)
  else
    (c, true)

/-- The Python signature is `stop_agent_loop(self, timeout: float = 5.0)`. -/
def stop_timeout_default : Nat := 5

/-! ### Configuration data model (`configuration.py`)

Float-valued fields (task weights, multipliers) are embedded as rationals;
no arithmetic is ever performed on them by the code under scrutiny. -/

/-- Embedding of `NetworkConfig`. -/
structure NetworkConfig where
  name : String
  network : Option String
  rpc : Option String
  private_key : String
deriving DecidableEq

/-- Embedding of `DiscordConfig`. -/
structure DiscordConfig where
  name : String
  message_read_count : Int
  message_emoji_name : String
  server_id : String
deriving DecidableEq

/-- Embedding of `TwitterConfig`. -/
structure TwitterConfig where
  name : String
  timeline_read_count : Int
  own_tweet_replies_count : Int
  tweet_interval : Int
deriving DecidableEq

/-- Embedding of `ConfigItem = DiscordConfig | TwitterConfig | NetworkConfig`. -/
inductive ConfigItem where
  | discord (c : DiscordConfig)
  | twitter (c : TwitterConfig)
  | network (c : NetworkConfig)
deriving DecidableEq

/-- Embedding of `TaskConfig`. -/
structure TaskConfig where
  name : String
  weight : ℚ
deriving DecidableEq

/-- Embedding of `TimeBasedMultipliers`. -/
structure TimeBasedMultipliers where
  tweet_night_multiplier : ℚ
  engagement_day_multiplier : ℚ
deriving DecidableEq

/-- Embedding of `AgentConfig` (the pydantic model stored by the legacy
registry). -/
structure AgentConfig where
  name : String
  bio : Option (List String) := none
  traits : Option (List String) := none
  examples : Option (List String) := none
  example_accounts : Option (List String) := none
  loop_delay : Option Int := none
  config : Option (List ConfigItem) := none
  tasks : Option (List TaskConfig) := none
  use_time_based_weights : Option Bool := none
  time_based_multipliers : Option TimeBasedMultipliers := none
deriving DecidableEq

/-- One entry of `internal.model_dump()['config']`: a Python dict.  The four
keys `SafeAgentConfig.from_internal` reads or writes are explicit optional
fields (`none` models an absent key, so `cfg.get(k)` is direct field access);
every remaining key of the non-network variants is kept in `other` as an
opaque key/value list, which the sanitizer never inspects. -/
structure ConfigDump where
  name : Option String
  network : Option String
  rpc : Option String
  private_key : Option String
  other : List (String × String)
deriving DecidableEq

/-- Result of `model_dump()` on one `ConfigItem`. -/
def dumpConfigItem : ConfigItem → ConfigDump
  | .network c =>
    { name := some c.name, network := c.network, rpc := c.rpc,
      private_key := some c.private_key, other := [] }
  | .discord c =>
    { name := some c.name, network := none, rpc := none, private_key := none,
      other := [("message_read_count", toString c.message_read_count),
                ("message_emoji_name", c.message_emoji_name),
                ("server_id", c.server_id)] }
  | .twitter c =>
    { name := some c.name, network := none, rpc := none, private_key := none,
      other := [("timeline_read_count", toString c.timeline_read_count),
                ("own_tweet_replies_count", toString c.own_tweet_replies_count),
                ("tweet_interval", toString c.tweet_interval)] }

/-- Loop body of `SafeAgentConfig.from_internal`: an entry whose `name` is
`'sonic'` or `'ethereum'` is rebuilt as a dict with only `name`, `network`
and `rpc`; any other entry is appended unchanged. -/
def sanitize_cfg (cfg : ConfigDump) : ConfigDump :=
  if cfg.name = some "sonic" ∨ cfg.name = some "ethereum" then
    { name := cfg.name, network := cfg.network, rpc := cfg.rpc,
      private_key := none, other := [] }
  else
    cfg

/-- The `config` list produced by `SafeAgentConfig.from_internal`: the loop
appends `sanitize_cfg` of each dumped entry in order. -/
def from_internal_config (config : List ConfigDump) : List ConfigDump :=
  config.map sanitize_cfg

/-- Embedding of the `data['config']` rewrite inside
`SafeAgentConfig.from_internal` at the level of the whole `AgentConfig`.
When `internal.config` is `None` the Python `for cfg in data['config']`
raises `TypeError`, embedded as `none`. -/
def from_internal (internal : AgentConfig) : Option (List ConfigDump) :=
  internal.config.map (fun items => from_internal_config (items.map dumpConfigItem))

/-! ### Python dictionaries as association lists

`dictGet` is `d.get(k)`, `dictSet` is `d[k] = v` (replace in place, append
when fresh), `dictDel` is `del d[k]`. -/

/-- Embedding of `d.get(k)`. -/
def dictGet {α : Type} : List (String × α) → String → Option α
  | [], _ => none
  | (k', v) :: rest, k => if k' = k then some v else dictGet rest k

/-- Embedding of `d[k] = v`. -/
def dictSet {α : Type} : List (String × α) → String → α → List (String × α)
  | [], k, v => [(k, v)]
  | (k', v') :: rest, k, v =>
    if k' = k then (k, v) :: rest else (k', v') :: dictSet rest k v

/-- Embedding of `del d[k]` on a dict with at most one binding per key. -/
def dictDel {α : Type} (m : List (String × α)) (k : String) : List (String × α) :=
  m.filter (fun p => p.1 ≠ k)

/-! ### Legacy registry (`server_state.py`)

`agent_configs` is the in-memory dict of loaded configs, `config_files` the
contents of the on-disk `config_dir` (keyed by file stem), `agent_loops` the
name-to-controller dict.  File I/O is embedded as pure updates of
`config_files`. -/

/-- State of the legacy `ServerState`. -/
structure ServerState where
  agent_configs : List (String × AgentConfig)
  config_files : List (String × AgentConfig)
  agent_loops : List (String × AgentController)
deriving DecidableEq

/-- Embedding of the legacy `ServerState.get_agent`. -/
def ServerState.get_agent (st : ServerState) (agent_id : String) : Option AgentConfig :=
  dictGet st.agent_configs (make_safe_agent_name agent_id)

/-- Embedding of the legacy `ServerState.add_agent`: writes the config file
under the safe name and stores the config in memory. -/
def ServerState.add_agent (st : ServerState) (agent : AgentConfig) : ServerState :=
  let safe_name := make_safe_agent_name agent.name
  { st with
    config_files := dictSet st.config_files safe_name agent,
    agent_configs := dictSet st.agent_configs safe_name agent }

/-- Embedding of the legacy `ServerState.delete_agent`.  The key is used raw
(no normalization) against both dicts; with no stored config, or with a
config but no registered controller, it returns `False` and changes nothing.
When a controller is present the source calls `agent_controller.stop_agent_loop()`
without `await` — the coroutine is created and dropped, never executed — so
the controller state is untouched; the entry is then removed from
`agent_loops` and the config file (under the re-normalized name) is
unlinked, while `agent_configs` keeps its entry. -/
def ServerState.delete_agent (st : ServerState) (agent_name : String) :
    ServerState × Bool :=
  match dictGet st.agent_configs agent_name with
  | none => (st, false)
  | some _ =>
    match dictGet st.agent_loops agent_name with
    | none => (st, false)
    | some _ =>
      ({ st with
         agent_loops := dictDel st.agent_loops agent_name,
         config_files := dictDel st.config_files (make_safe_agent_name agent_name) },
       true)

/-- Embedding of the legacy `ServerState.start_agent`.  `createOk` is the
oracle for whether the external `ZerePyAgent(agent_name)` constructor
succeeds; when it raises, the `except` block returns `False` before any
registry write.  `start_agent` runs with no suspension point (awaiting
`is_running` and `start_agent_loop` never reaches a pending future:
`asyncio.Lock.acquire` on an uncontended lock and `asyncio.create_task`
return without yielding), so the whole call is one atomic step of the
cooperative scheduler. -/
def ServerState.start_agent (st : ServerState) (createOk : Bool)
    (agent_name : String) : ServerState × Bool :=
  let safe_name := make_safe_agent_name agent_name
  match dictGet st.agent_configs safe_name with
  | none => (st, false)
  | some _ =>
    let alreadyRunning :=
      match dictGet st.agent_loops safe_name with
      | some ctrl => is_running ctrl
      | none => false
    if alreadyRunning then
      (st, false)
    else if createOk then
      let ctrl := AgentController.init
      let st₁ := { st with agent_loops := dictSet st.agent_loops safe_name ctrl }
      match start_agent_loop ctrl with
      | .ok ctrl' =>
        ({ st₁ with agent_loops := dictSet st₁.agent_loops safe_name ctrl' }, true)
      | .error _ => (st₁, false)
    else
      (st, false)

/-- Embedding of the legacy `ServerState.stop_agent`: with a registered
controller it awaits `stop_agent_loop()` (default timeout) and discards the
delegated boolean, returning `True`; with none it returns `True` directly. -/
def ServerState.stop_agent (st : ServerState) (agent_name : String)
    (exitTime : Option Nat) : ServerState × Bool :=
  let safe_name := make_safe_agent_name agent_name
  match dictGet st.agent_loops safe_name with
  | some ctrl =>
    let r := stop_agent_loop ctrl stop_timeout_default exitTime
    ({ st with agent_loops := dictSet st.agent_loops safe_name r.1 }, true)
  | none => (st, true)

/-! ### Python `int(...)` parsing

The updated registry dispatches on `int(agent_id)` raising `ValueError` or
not.  `int` on a string strips surrounding whitespace, accepts one optional
sign, then decimal digits with single underscores allowed only between two
digits. -/

/-- Characters `int(...)` strips from both ends. -/
def isPySpace (c : Char) : Bool :=
  c = ' ' || c = '\t' || c = '\n' || c = '\r' || c = '\x0b' || c = '\x0c'

/-- Strip `isPySpace` characters from both ends. -/
def pyStrip (l : List Char) : List Char :=
  ((l.dropWhile isPySpace).reverse.dropWhile isPySpace).reverse

/-- Numeric value of a decimal digit character. -/
def digitVal (c : Char) : Nat := c.toNat - 48

/-- Digits after the first: an underscore must be followed by a digit. -/
def parseDigitsAux : List Char → Nat → Option Nat
  | [], acc => some acc
  | '_' :: c :: rest, acc =>
    if c.isDigit then parseDigitsAux rest (10 * acc + digitVal c) else none
  | c :: rest, acc =>
    if c.isDigit then parseDigitsAux rest (10 * acc + digitVal c) else none

/-- A nonempty digit string, underscores only between digits. -/
def parseDigits : List Char → Option Nat
  | [] => none
  | c :: rest => if c.isDigit then parseDigitsAux rest (digitVal c) else none

/-- Embedding of Python `int(s)` on strings: `some n` when it parses, `none`
when `int` raises `ValueError`. -/
def pyParseInt (s : String) : Option Int :=
  match pyStrip s.data with
  | '+' :: rest => (parseDigits rest).map (fun n => (n : Int))
  | '-' :: rest => (parseDigits rest).map (fun n => -(n : Int))
  | rest => (parseDigits rest).map (fun n => (n : Int))

/-! ### Database layer (`src/database/manager.py`)

Rows of the `Agent` table.  Scalar attributes other than `id` and `name`
are kept as an opaque key/value list (the JSON re-encoding of list-valued
fields in `update_agent` does not affect which row is read or written);
config and task child rows are not modelled — no claim touches them. -/

/-- One row of the `Agent` table. -/
structure DbAgent where
  id : Int
  name : String
  attrs : List (String × String)
deriving DecidableEq

/-- The agent table. -/
structure Database where
  agents : List DbAgent
deriving DecidableEq

/-- Embedding of `DatabaseManager.get_agent_by_id`: `session.get(Agent, id)`,
primary-key lookup. -/
def get_agent_by_id (db : Database) (agent_id : Int) : Option DbAgent :=
  db.agents.find? (fun a => a.id == agent_id)

/-- Embedding of `DatabaseManager.get_agent_by_name`:
`select(Agent).where(Agent.name == name)`, first match. -/
def get_agent_by_name (db : Database) (agent_name : String) : Option DbAgent :=
  db.agents.find? (fun a => a.name == agent_name)

/-- Keys skipped by the `setattr` loop in `DatabaseManager.update_agent`. -/
def pyUpdateSkipKeys : List String := ["id", "configs", "config", "tasks", "created_at"]

/-- One `setattr(agent, key, value)` on a row. -/
def setAttr (a : DbAgent) (k v : String) : DbAgent :=
  if k = "name" then { a with name := v } else { a with attrs := dictSet a.attrs k v }

/-- The `setattr` loop of `DatabaseManager.update_agent` over the update
dict. -/
def applyAgentUpdate (a : DbAgent) (d : List (String × String)) : DbAgent :=
  d.foldl (fun acc kv => if kv.1 ∈ pyUpdateSkipKeys then acc else setAttr acc kv.1 kv.2) a

/-- Embedding of `DatabaseManager.update_agent`: fetch by primary key,
return `None` when absent, else apply the scalar updates and commit the
row. -/
def db_update_agent (db : Database) (agent_id : Int)
    (agent_data : List (String × String)) : Database × Option DbAgent :=
  match get_agent_by_id db agent_id with
  | none => (db, none)
  | some a =>
    let a' := applyAgentUpdate a agent_data
    ({ agents := db.agents.map (fun x => if x.id == agent_id then a' else x) }, some a')

/-- Embedding of `DatabaseManager.delete_agent`: fetch by primary key,
`False` when absent, else delete the row and return `True`. -/
def db_delete_agent (db : Database) (agent_id : Int) : Database × Bool :=
  match get_agent_by_id db agent_id with
  | none => (db, false)
  | some _ => ({ agents := db.agents.filter (fun a => a.id != agent_id) }, true)

/-! ### Updated registry (`updated_server_state.py`) -/

namespace Updated

/-- Embedding of an `ActionRequest` body. -/
structure ActionRequest where
  connection : String
  action : String
  params : List String
deriving DecidableEq

/-- State of the updated `ServerState`: the database plus the
name-to-controller dict. -/
structure ServerState where
  db : Database
  agent_loops : List (String × AgentController)
deriving DecidableEq

/-- Embedding of the updated `ServerState.get_agent`: keys parsing as an
integer take the ID lookup, all others the normalized name lookup. -/
def ServerState.get_agent (st : ServerState) (agent_id : String) : Option DbAgent :=
  match pyParseInt agent_id with
  | some n => get_agent_by_id st.db n
  | none => get_agent_by_name st.db (make_safe_agent_name agent_id)

/-- Embedding of the updated `ServerState.update_agent`. -/
def ServerState.update_agent (st : ServerState) (agent_id : String)
    (agent_data : List (String × String)) : ServerState × Option DbAgent :=
  match pyParseInt agent_id with
  | some n =>
    let r := db_update_agent st.db n agent_data
    ({ st with db := r.1 }, r.2)
  | none =>
    let safe_name := make_safe_agent_name agent_id
    match get_agent_by_name st.db safe_name with
    | some db_agent =>
      let r := db_update_agent st.db db_agent.id agent_data
      ({ st with db := r.1 }, r.2)
    | none => (st, none)

/-- Embedding of the updated `ServerState.delete_agent`: note it neither
stops a running controller nor removes any `agent_loops` entry. -/
def ServerState.delete_agent (st : ServerState) (agent_id : String) :
    ServerState × Bool :=
  match pyParseInt agent_id with
  | some n =>
    let r := db_delete_agent st.db n
    ({ st with db := r.1 }, r.2)
  | none =>
    let safe_name := make_safe_agent_name agent_id
    match get_agent_by_name st.db safe_name with
    | some db_agent =>
      let r := db_delete_agent st.db db_agent.id
      ({ st with db := r.1 }, r.2)
    | none => (st, false)

/-- Embedding of the updated `ServerState.start_agent`; `createOk` is the
oracle for `create_zerepy_agent_from_db` succeeding.  As in the legacy
revision, the call body has no suspension point, so it is one atomic step of
the cooperative scheduler. -/
def ServerState.start_agent (st : ServerState) (createOk : Bool)
    (agent_name : String) : ServerState × Bool :=
  let safe_name := make_safe_agent_name agent_name
  match get_agent_by_name st.db safe_name with
  | none => (st, false)
  | some _ =>
    let alreadyRunning :=
      match dictGet st.agent_loops safe_name with
      | some ctrl => is_running ctrl
      | none => false
    if alreadyRunning then
      (st, false)
    else if createOk then
      let ctrl := AgentController.init
      let st₁ := { st with agent_loops := dictSet st.agent_loops safe_name ctrl }
      match start_agent_loop ctrl with
      | .ok ctrl' =>
        ({ st₁ with agent_loops := dictSet st₁.agent_loops safe_name ctrl' }, true)
      | .error _ => (st₁, false)
    else
      (st, false)

/-- Embedding of the updated `ServerState.stop_agent` — textually the same
as the legacy one: the delegated boolean is discarded. -/
def ServerState.stop_agent (st : ServerState) (agent_name : String)
    (exitTime : Option Nat) : ServerState × Bool :=
  let safe_name := make_safe_agent_name agent_name
  match dictGet st.agent_loops safe_name with
  | some ctrl =>
    let r := stop_agent_loop ctrl stop_timeout_default exitTime
    ({ st with agent_loops := dictSet st.agent_loops safe_name r.1 }, true)
  | none => (st, true)

/-- Embedding of the updated `ServerState.request_action`.  `performCtrl` is
the registered controller's `request_action` (whose exceptions propagate,
embedded as `.error`); `createOk` tells whether the transient
`create_zerepy_agent_from_db` construction succeeds, `performTransient` is
the transient handle's `perform_action` (exceptions on this path are caught
and turned into a `None` return).  The third component is the trace of
direct `perform_action` invocations on transient handles. -/
def ServerState.request_action (st : ServerState)
    (performCtrl : AgentController → ActionRequest → Except String String)
    (createOk : Bool)
    (performTransient : DbAgent → ActionRequest → Except String String)
    (agent_name : String) (req : ActionRequest) :
    ServerState × Except String (Option String) × List (DbAgent × ActionRequest) :=
  let safe_name := make_safe_agent_name agent_name
  match dictGet st.agent_loops safe_name with
  | some ctrl =>
    match performCtrl ctrl req with
    | .ok r => (st, .ok (some r), [])
    | .error e => (st, .error e, [])
  | none =>
    match get_agent_by_name st.db safe_name with
    | none => (st, .ok none, [])
    | some db_agent =>
      if createOk then
        match performTransient db_agent req with
        | .ok r => (st, .ok (some r), [(db_agent, req)])
        | .error _ => (st, .ok none, [(db_agent, req)])
      else
        (st, .ok none, [])

end Updated

/-! ### Concrete states used by counterexamples and witnesses -/

/-- A one-agent legacy state whose controller for key "a" is running. -/
def runningStateA : ServerState :=
  ⟨[("a", { name := "a" })], [("a", { name := "a" })], [("a", { stopEventSet := false, task := some false })]⟩

/-- A one-agent legacy state with a stored config for "a" and no registered
controller (the agent exists but is not running). -/
def stoppedStateA : ServerState :=
  ⟨[("a", { name := "a" })], [("a", { name := "a" })], []⟩

/-- A network config entry named "solana" holding a private key. -/
def solanaItem : ConfigItem := .network ⟨"solana", none, none, "SECRET"⟩

/-- A network config entry named "sonic" holding a private key. -/
def sonicItem : ConfigItem := .network ⟨"sonic", some "mainnet", none, "KEY2"⟩

/-- An agent config carrying the two sample network entries. -/
def sampleAgent : AgentConfig := { name := "x", config := some [solanaItem, sonicItem] }

/-- The dump of the "solana" entry, which the sanitizer passes through. -/
def solanaDump : ConfigDump := { name := some "solana", network := none, rpc := none, private_key := some "SECRET", other := [] }

/-- The sanitized dump of the "sonic" entry, its private key removed. -/
def sonicSanitizedDump : ConfigDump := { name := some "sonic", network := some "mainnet", rpc := none, private_key := none, other := [] }

/-! ### Helper lemmas -/

/-- One normalization step is idempotent charwise. -/
theorem safe_char_idem (c : Char) :
    Char.toLower (replaceSpaceChar (Char.toLower (replaceSpaceChar c)))
      = Char.toLower (replaceSpaceChar c) := by
  rw [replaceSpace_toLower_fixed, toLower_idem]

/-- List form of normalization idempotence. -/
theorem safe_list_idem (l : List Char) :
    (((l.map replaceSpaceChar).map Char.toLower).map replaceSpaceChar).map Char.toLower
      = (l.map replaceSpaceChar).map Char.toLower := by
  induction l with
  | nil => rfl
  | cons c tl ih =>
    simp only [List.map_cons]
    rw [safe_char_idem, ih]

/-- Normalizing twice equals normalizing once. -/
theorem make_safe_idem (s : String) :
    make_safe_agent_name (make_safe_agent_name s) = make_safe_agent_name s :=
  congrArg String.mk (safe_list_idem s.data)

/-- Reading back the key just written. -/
theorem dictGet_dictSet_self {α : Type} (m : List (String × α)) (k : String) (v : α) :
    dictGet (dictSet m k v) k = some v := by
  induction m with
  | nil => simp [dictSet, dictGet]
  | cons p tl ih =>
    obtain ⟨k', v'⟩ := p
    by_cases h : k' = k
    · simp [dictSet, dictGet, h]
    · simp [dictSet, dictGet, h, ih]

/-- Writing the same key twice keeps only the second write. -/
theorem dictSet_dictSet_self {α : Type} (m : List (String × α)) (k : String) (v v' : α) :
    dictSet (dictSet m k v) k v' = dictSet m k v' := by
  induction m with
  | nil => simp [dictSet]
  | cons p tl ih =>
    obtain ⟨k₀, v₀⟩ := p
    by_cases h : k₀ = k
    · simp [dictSet, h]
    · simp [dictSet, h, ih]

/-! ### Claims -/

/-- C7: agent-name normalization (lowercase, spaces to underscores) is total
(a Lean function) and idempotent — applying it twice equals applying it once
on every string — and the lookups for "My Agent", "my agent" and "My_Agent"
all resolve the same registry slot as "my_agent". -/
theorem C7_normalization_idempotent :
    (∀ s : String, make_safe_agent_name (make_safe_agent_name s) = make_safe_agent_name s)
    ∧ make_safe_agent_name "My Agent" = "my_agent"
    ∧ make_safe_agent_name "my agent" = "my_agent"
    ∧ make_safe_agent_name "My_Agent" = "my_agent"
    ∧ make_safe_agent_name "my_agent" = "my_agent"
    ∧ (∀ st : ServerState,
        st.get_agent "My Agent" = st.get_agent "my_agent"
        ∧ st.get_agent "my agent" = st.get_agent "my_agent"
        ∧ st.get_agent "My_Agent" = st.get_agent "my_agent") := by
  refine ⟨make_safe_idem, by decide, by decide, by decide, by decide, ?_⟩
  intro st
  unfold ServerState.get_agent
  rw [show make_safe_agent_name "My Agent" = "my_agent" by decide,
      show make_safe_agent_name "my agent" = "my_agent" by decide,
      show make_safe_agent_name "My_Agent" = "my_agent" by decide]
  exact ⟨rfl, rfl, rfl⟩

/-- C5: the controller's stop is a no-op returning success when not running
(whether the task slot is empty or the task already completed on its own);
from Running it sets the cancellation event and waits up to `timeout`
(default 5): task exits in time — success with state Stopped; timeout first —
failure with the task reference retained, and a subsequent stop can retry
successfully. -/
theorem C5_controller_stop (c : AgentController) (timeout : Nat) :
    stop_timeout_default = 5
    ∧ (is_running c = false → ∀ e, stop_agent_loop c timeout e = (c, true))
    ∧ (is_running c = true →
        (∀ t, t ≤ timeout →
          stop_agent_loop c timeout (some t)
            = ({ stopEventSet := true, task := none }, true)
          ∧ is_running (stop_agent_loop c timeout (some t)).1 = false)
        ∧ (∀ t, ¬ t ≤ timeout →
          stop_agent_loop c timeout (some t) = ({ c with stopEventSet := true }, false)
          ∧ (stop_agent_loop c timeout (some t)).1.task = c.task)
        ∧ stop_agent_loop c timeout none = ({ c with stopEventSet := true }, false)
        ∧ (∀ t t', ¬ t ≤ timeout → t' ≤ timeout →
            (stop_agent_loop (stop_agent_loop c timeout (some t)).1 timeout (some t')).2
              = true)) := by
  refine ⟨rfl, ?_, ?_⟩
  · intro hnr e
    simp [stop_agent_loop, hnr]
  · intro hr
    refine ⟨?_, ?_, ?_, ?_⟩
    · intro t ht
      have heq : stop_agent_loop c timeout (some t)
          = ({ stopEventSet := true, task := none }, true) := by
        simp [stop_agent_loop, hr, ht]
      exact ⟨heq, by rw [heq]; rfl⟩
    · intro t ht
      simp [stop_agent_loop, hr, ht]
    · simp [stop_agent_loop, hr]
    · intro t t' ht ht'
      have hr' : is_running { c with stopEventSet := true } = is_running c := by
        simp [is_running]
      simp [stop_agent_loop, hr, ht, hr', ht']

/-- Witness for C5 at a running controller and a stopped one. -/
theorem C5_controller_stop_witness :
    stop_agent_loop ⟨false, none⟩ 5 (some 3) = (⟨false, none⟩, true)
    ∧ stop_agent_loop ⟨false, some false⟩ 5 (some 3)
        = ({ stopEventSet := true, task := none }, true)
    ∧ stop_agent_loop ⟨false, some false⟩ 5 (some 9)
        = ({ stopEventSet := true, task := some false }, false) :=
  ⟨(C5_controller_stop ⟨false, none⟩ 5).2.1 rfl (some 3),
   (((C5_controller_stop ⟨false, some false⟩ 5).2.2 rfl).1 3 (by decide)).1,
   (((C5_controller_stop ⟨false, some false⟩ 5).2.2 rfl).2.1 9 (by decide)).1⟩

/-- C6: the controller's start fails (raises `ValueError`, the registry's
`AlreadyRunning`) exactly when called while running; on success it clears the
cancellation event and spawns the loop task, transitioning to Running.  The
check and the task creation form one atomic step (the source holds
`self._running_lock` around both), so a start sequenced after a successful
start always observes Running and fails. -/
theorem C6_controller_start (c : AgentController) :
    (is_running c = true → start_agent_loop c = .error "already running")
    ∧ (is_running c = false →
        start_agent_loop c = .ok { stopEventSet := false, task := some false }
        ∧ is_running { stopEventSet := false, task := some false } = true)
    ∧ (∀ c', start_agent_loop c = .ok c' → start_agent_loop c' = .error "already running") := by
  refine ⟨?_, ?_, ?_⟩
  · intro hr
    simp [start_agent_loop, hr]
  · intro hnr
    exact ⟨by simp [start_agent_loop, hnr], rfl⟩
  · intro c' hc'
    unfold start_agent_loop at hc'
    by_cases hr : is_running c = true
    · simp [hr] at hc'
    · simp [hr] at hc'
      rw [← hc']
      simp [start_agent_loop, is_running]

/-- Witness for C6 at a running and a stopped controller. -/
theorem C6_controller_start_witness :
    start_agent_loop ⟨true, some false⟩ = .error "already running"
    ∧ start_agent_loop ⟨true, none⟩ = .ok { stopEventSet := false, task := some false }
    ∧ start_agent_loop { stopEventSet := false, task := some false }
        = .error "already running" :=
  ⟨(C6_controller_start ⟨true, some false⟩).1 rfl,
   ((C6_controller_start ⟨true, none⟩).2.1 rfl).1,
   (C6_controller_start ⟨true, none⟩).2.2 { stopEventSet := false, task := some false }
     (((C6_controller_start ⟨true, none⟩).2.1 rfl).1)⟩

/-- C4: starting an agent whose key has no stored config fails and returns
the state unchanged — in particular the key-to-controller map is untouched —
in both registry revisions. -/
theorem C4_start_unknown_key (createOk : Bool) :
    (∀ st : ServerState, ∀ k : String,
      dictGet st.agent_configs (make_safe_agent_name k) = none →
      st.start_agent createOk k = (st, false))
    ∧ (∀ st : Updated.ServerState, ∀ k : String,
      get_agent_by_name st.db (make_safe_agent_name k) = none →
      st.start_agent createOk k = (st, false)) := by
  constructor
  · intro st k h
    simp [ServerState.start_agent, h]
  · intro st k h
    simp [Updated.ServerState.start_agent, h]

/-- Witness for C4 on empty registries. -/
theorem C4_start_unknown_key_witness :
    ServerState.start_agent ⟨[], [], []⟩ true "ghost" = (⟨[], [], []⟩, false)
    ∧ Updated.ServerState.start_agent ⟨⟨[]⟩, []⟩ true "ghost" = (⟨⟨[]⟩, []⟩, false) :=
  ⟨(C4_start_unknown_key true).1 ⟨[], [], []⟩ "ghost" rfl,
   (C4_start_unknown_key true).2 ⟨⟨[]⟩, []⟩ "ghost" rfl⟩

/-- C1 counterexample: with a registered running controller whose stop times
out (the task never exits), the delegated `stop_agent_loop` returns `False`
yet `stop_agent` returns `True` — the boolean is not returned verbatim, the
claim fails at this input. -/
theorem C1_stop_result_counterexample :
    ¬ ((ServerState.stop_agent runningStateA "a" none).2
        = (stop_agent_loop { stopEventSet := false, task := some false }
            stop_timeout_default none).2) := by
  decide

/-- C1 amended: `stop_agent` returns success when no controller is
registered; otherwise it delegates to `stop_agent_loop` with the default
timeout, stores the resulting controller state, but discards the delegated
boolean and returns success unconditionally — in both registry revisions. -/
theorem C1_stop_agent_amended (st : ServerState) (ust : Updated.ServerState)
    (k : String) (e : Option Nat) :
    (st.stop_agent k e).2 = true
    ∧ (dictGet st.agent_loops (make_safe_agent_name k) = none →
        st.stop_agent k e = (st, true))
    ∧ (∀ ctrl, dictGet st.agent_loops (make_safe_agent_name k) = some ctrl →
        st.stop_agent k e
          = ({ st with agent_loops := dictSet st.agent_loops (make_safe_agent_name k) (stop_agent_loop ctrl stop_timeout_default e).1 }, true))
    ∧ (ust.stop_agent k e).2 = true
    ∧ (dictGet ust.agent_loops (make_safe_agent_name k) = none →
        ust.stop_agent k e = (ust, true))
    ∧ (∀ ctrl, dictGet ust.agent_loops (make_safe_agent_name k) = some ctrl →
        ust.stop_agent k e
          = ({ ust with agent_loops := dictSet ust.agent_loops (make_safe_agent_name k) (stop_agent_loop ctrl stop_timeout_default e).1 }, true)) := by
  refine ⟨?_, ?_, ?_, ?_, ?_, ?_⟩
  · cases hl : dictGet st.agent_loops (make_safe_agent_name k) <;>
      simp [ServerState.stop_agent, hl]
  · intro hl
    simp [ServerState.stop_agent, hl]
  · intro ctrl hl
    simp [ServerState.stop_agent, hl]
  · cases hl : dictGet ust.agent_loops (make_safe_agent_name k) <;>
      simp [Updated.ServerState.stop_agent, hl]
  · intro hl
    simp [Updated.ServerState.stop_agent, hl]
  · intro ctrl hl
    simp [Updated.ServerState.stop_agent, hl]

/-- Witness for the amended C1: the no-controller branch and the
timed-out-stop branch, both returning success. -/
theorem C1_stop_agent_amended_witness :
    ServerState.stop_agent ⟨[], [], []⟩ "a" none = (⟨[], [], []⟩, true)
    ∧ ServerState.stop_agent runningStateA "a" none
        = ({ runningStateA with agent_loops := dictSet runningStateA.agent_loops (make_safe_agent_name "a") (stop_agent_loop { stopEventSet := false, task := some false } stop_timeout_default none).1 }, true) :=
  ⟨(C1_stop_agent_amended ⟨[], [], []⟩ ⟨⟨[]⟩, []⟩ "a" none).2.1 rfl,
   (C1_stop_agent_amended runningStateA ⟨⟨[]⟩, []⟩ "a" none).2.2.1
     { stopEventSet := false, task := some false } rfl⟩

/-- C2 counterexample: deleting an existing agent that is not currently
running fails (`False`, surfaced as `NotFound`) and removes nothing — the
stored config is retained — contradicting the claim that it succeeds and
removes the config. -/
theorem C2_delete_not_running_counterexample :
    ¬ ((ServerState.delete_agent stoppedStateA "a").2 = true)
    ∧ (ServerState.delete_agent stoppedStateA "a").1 = stoppedStateA := by
  decide

/-- C2 amended: in the legacy registry `delete_agent` succeeds only when both
a stored config and a registered controller exist under the exact (raw) key;
it then drops the controller entry and the config file but keeps the
in-memory config, and its stop call is fire-and-forget (the coroutine is
never awaited).  With a config but no controller it fails with no change.
In the updated registry `delete_agent` never stops anything and never touches
the controller registry: it deletes the database row (by ID for
integer-parsing keys, else by normalized name), failing only when no row is
found. -/
theorem C2_delete_agent_amended (st : ServerState) (ust : Updated.ServerState)
    (k : String) :
    (dictGet st.agent_configs k = none → st.delete_agent k = (st, false))
    ∧ (∀ cfg, dictGet st.agent_configs k = some cfg →
        dictGet st.agent_loops k = none → st.delete_agent k = (st, false))
    ∧ (∀ cfg ctrl, dictGet st.agent_configs k = some cfg →
        dictGet st.agent_loops k = some ctrl →
        st.delete_agent k
          = ({ st with agent_loops := dictDel st.agent_loops k, config_files := dictDel st.config_files (make_safe_agent_name k) }, true)
        ∧ (st.delete_agent k).1.agent_configs = st.agent_configs)
    ∧ (ust.delete_agent k).1.agent_loops = ust.agent_loops
    ∧ (∀ n, pyParseInt k = some n →
        (ust.delete_agent k).2 = (db_delete_agent ust.db n).2)
    ∧ (pyParseInt k = none →
        (get_agent_by_name ust.db (make_safe_agent_name k) = none →
          ust.delete_agent k = (ust, false))
        ∧ (∀ dba, get_agent_by_name ust.db (make_safe_agent_name k) = some dba →
            (ust.delete_agent k).2 = (db_delete_agent ust.db dba.id).2)) := by
  refine ⟨?_, ?_, ?_, ?_, ?_, ?_⟩
  · intro h
    simp [ServerState.delete_agent, h]
  · intro cfg hc hl
    simp [ServerState.delete_agent, hc, hl]
  · intro cfg ctrl hc hl
    refine ⟨?_, ?_⟩ <;> simp [ServerState.delete_agent, hc, hl]
  · cases hp : pyParseInt k with
    | some n =>
      cases hid : get_agent_by_id ust.db n <;>
        simp [Updated.ServerState.delete_agent, hp, db_delete_agent, hid]
    | none =>
      cases hn : get_agent_by_name ust.db (make_safe_agent_name k) with
      | none => simp [Updated.ServerState.delete_agent, hp, hn]
      | some dba =>
        cases hid : get_agent_by_id ust.db dba.id <;>
          simp [Updated.ServerState.delete_agent, hp, hn, db_delete_agent, hid]
  · intro n hp
    simp [Updated.ServerState.delete_agent, hp]
  · intro hp
    constructor
    · intro hn
      simp [Updated.ServerState.delete_agent, hp, hn]
    · intro dba hn
      simp [Updated.ServerState.delete_agent, hp, hn]

/-- Witness for the amended C2: the not-running failure, the
config-plus-controller success shape, and the updated revision leaving the
controller registry alone. -/
theorem C2_delete_agent_amended_witness :
    ServerState.delete_agent stoppedStateA "a" = (stoppedStateA, false)
    ∧ ServerState.delete_agent runningStateA "a"
        = ({ runningStateA with agent_loops := dictDel runningStateA.agent_loops "a", config_files := dictDel runningStateA.config_files (make_safe_agent_name "a") }, true)
    ∧ (Updated.ServerState.delete_agent ⟨⟨[]⟩, [("a", AgentController.init)]⟩ "a").1.agent_loops
        = [("a", AgentController.init)] :=
  ⟨(C2_delete_agent_amended stoppedStateA ⟨⟨[]⟩, []⟩ "a").2.1 { name := "a" } rfl rfl,
   ((C2_delete_agent_amended runningStateA ⟨⟨[]⟩, []⟩ "a").2.2.1 { name := "a" }
     { stopEventSet := false, task := some false } rfl rfl).1,
   (C2_delete_agent_amended stoppedStateA ⟨⟨[]⟩, [("a", AgentController.init)]⟩ "a").2.2.2.1⟩

/-- With a stored config and no running controller under the key, a legacy
`start_agent` with a succeeding handle constructor registers a freshly
started controller and returns success. -/
theorem start_agent_success (st : ServerState) (k : String) (cfg : AgentConfig)
    (hcfg : dictGet st.agent_configs (make_safe_agent_name k) = some cfg)
    (hrun : ∀ ctrl, dictGet st.agent_loops (make_safe_agent_name k) = some ctrl →
      is_running ctrl = false) :
    st.start_agent true k
      = ({ st with agent_loops := dictSet st.agent_loops (make_safe_agent_name k) { stopEventSet := false, task := some false } }, true) := by
  cases hl : dictGet st.agent_loops (make_safe_agent_name k) with
  | none =>
    simp [ServerState.start_agent, hcfg, hl, AgentController.init, start_agent_loop,
      is_running, dictSet_dictSet_self]
  | some ctrl =>
    have hr := hrun ctrl hl
    simp [ServerState.start_agent, hcfg, hl, hr, AgentController.init, start_agent_loop,
      is_running, dictSet_dictSet_self]
    exact hr

/-- With a registered running controller under the key, a legacy
`start_agent` observes AlreadyRunning and fails without change. -/
theorem start_agent_already_running (st : ServerState) (createOk : Bool) (k : String)
    (cfg : AgentConfig) (ctrl : AgentController)
    (hcfg : dictGet st.agent_configs (make_safe_agent_name k) = some cfg)
    (hl : dictGet st.agent_loops (make_safe_agent_name k) = some ctrl)
    (hr : is_running ctrl = true) :
    st.start_agent createOk k = (st, false) := by
  simp [ServerState.start_agent, hcfg, hl, hr]

/-- Updated-registry analogue of `start_agent_success`. -/
theorem u_start_agent_success (st : Updated.ServerState) (k : String) (dba : DbAgent)
    (hdb : get_agent_by_name st.db (make_safe_agent_name k) = some dba)
    (hrun : ∀ ctrl, dictGet st.agent_loops (make_safe_agent_name k) = some ctrl →
      is_running ctrl = false) :
    st.start_agent true k
      = ({ st with agent_loops := dictSet st.agent_loops (make_safe_agent_name k) { stopEventSet := false, task := some false } }, true) := by
  cases hl : dictGet st.agent_loops (make_safe_agent_name k) with
  | none =>
    simp [Updated.ServerState.start_agent, hdb, hl, AgentController.init, start_agent_loop,
      is_running, dictSet_dictSet_self]
  | some ctrl =>
    have hr := hrun ctrl hl
    simp [Updated.ServerState.start_agent, hdb, hl, hr, AgentController.init,
      start_agent_loop, is_running, dictSet_dictSet_self]
    exact hr

/-- Updated-registry analogue of `start_agent_already_running`. -/
theorem u_start_agent_already_running (st : Updated.ServerState) (createOk : Bool)
    (k : String) (dba : DbAgent) (ctrl : AgentController)
    (hdb : get_agent_by_name st.db (make_safe_agent_name k) = some dba)
    (hl : dictGet st.agent_loops (make_safe_agent_name k) = some ctrl)
    (hr : is_running ctrl = true) :
    st.start_agent createOk k = (st, false) := by
  simp [Updated.ServerState.start_agent, hdb, hl, hr]

/-- C3: two `start_agent` calls for the same key.  Neither revision's
`start_agent` body reaches a pending future (`await is_running`,
`await start_agent_loop` with an uncontended lock and `create_task` never
yield to the event loop), so the cooperative scheduler runs each concurrent
call as one atomic step and any concurrent execution is one of the two
serializations; the two calls being identical, both serializations are this
composition.  Starting from a state with a stored config and no running
controller for the key, the first call succeeds in creating a controller and
transitioning it to Running, and the second observes it running and fails. -/
theorem C3_concurrent_start_exclusion (st : ServerState) (ust : Updated.ServerState)
    (k : String) (cfg : AgentConfig) (dba : DbAgent)
    (hcfg : dictGet st.agent_configs (make_safe_agent_name k) = some cfg)
    (hrun : ∀ ctrl, dictGet st.agent_loops (make_safe_agent_name k) = some ctrl →
      is_running ctrl = false)
    (hucfg : get_agent_by_name ust.db (make_safe_agent_name k) = some dba)
    (hurun : ∀ ctrl, dictGet ust.agent_loops (make_safe_agent_name k) = some ctrl →
      is_running ctrl = false) :
    ((st.start_agent true k).2 = true
     ∧ dictGet (st.start_agent true k).1.agent_loops (make_safe_agent_name k)
         = some { stopEventSet := false, task := some false }
     ∧ (st.start_agent true k).1.start_agent true k = ((st.start_agent true k).1, false))
    ∧ ((ust.start_agent true k).2 = true
     ∧ dictGet (ust.start_agent true k).1.agent_loops (make_safe_agent_name k)
         = some { stopEventSet := false, task := some false }
     ∧ (ust.start_agent true k).1.start_agent true k
         = ((ust.start_agent true k).1, false)) := by
  have h1 := start_agent_success st k cfg hcfg hrun
  have hu1 := u_start_agent_success ust k dba hucfg hurun
  constructor
  · refine ⟨by rw [h1], ?_, ?_⟩
    · rw [h1]
      exact dictGet_dictSet_self _ _ _
    · rw [h1]
      exact start_agent_already_running _ true k cfg { stopEventSet := false, task := some false }
        hcfg (dictGet_dictSet_self _ _ _) rfl
  · refine ⟨by rw [hu1], ?_, ?_⟩
    · rw [hu1]
      exact dictGet_dictSet_self _ _ _
    · rw [hu1]
      exact u_start_agent_already_running _ true k dba { stopEventSet := false, task := some false }
        hucfg (dictGet_dictSet_self _ _ _) rfl

/-- Witness for C3 on one-agent registries with nothing running. -/
theorem C3_concurrent_start_exclusion_witness :
    (ServerState.start_agent stoppedStateA true "a").2 = true
    ∧ ((ServerState.start_agent stoppedStateA true "a").1.start_agent true "a").2 = false
    ∧ (Updated.ServerState.start_agent ⟨⟨[⟨1, "a", []⟩]⟩, []⟩ true "a").2 = true
    ∧ ((Updated.ServerState.start_agent ⟨⟨[⟨1, "a", []⟩]⟩, []⟩ true "a").1.start_agent
        true "a").2 = false := by
  have h := C3_concurrent_start_exclusion stoppedStateA ⟨⟨[⟨1, "a", []⟩]⟩, []⟩ "a"
    { name := "a" } ⟨1, "a", []⟩ rfl (by intro ctrl hc; cases hc) rfl
    (by intro ctrl hc; cases hc)
  exact ⟨h.1.1, by rw [h.1.2.2], h.2.1, by rw [h.2.2.2]⟩

/-- C8: `request_action` on an agent with a persisted config, no registered
controller and a succeeding transient handle construction invokes the action
exactly once on the transient handle (the invocation trace is the singleton),
returns its result (a raised action error is caught and becomes a `None`
return), and leaves the state — in particular the key-to-controller map —
unchanged, so no controller is registered afterwards. -/
theorem C8_request_action_no_controller (st : Updated.ServerState)
    (performCtrl : AgentController → Updated.ActionRequest → Except String String)
    (performTransient : DbAgent → Updated.ActionRequest → Except String String)
    (k : String) (req : Updated.ActionRequest) (dba : DbAgent)
    (hnoctrl : dictGet st.agent_loops (make_safe_agent_name k) = none)
    (hdb : get_agent_by_name st.db (make_safe_agent_name k) = some dba) :
    (st.request_action performCtrl true performTransient k req).1 = st
    ∧ (st.request_action performCtrl true performTransient k req).2.2 = [(dba, req)]
    ∧ dictGet (st.request_action performCtrl true performTransient k req).1.agent_loops
        (make_safe_agent_name k) = none
    ∧ (∀ v, performTransient dba req = .ok v →
        (st.request_action performCtrl true performTransient k req).2.1 = .ok (some v))
    ∧ (∀ e, performTransient dba req = .error e →
        (st.request_action performCtrl true performTransient k req).2.1 = .ok none) := by
  cases hp : performTransient dba req with
  | ok v =>
    refine ⟨?_, ?_, ?_, ?_, ?_⟩
    · simp [Updated.ServerState.request_action, hnoctrl, hdb, hp]
    · simp [Updated.ServerState.request_action, hnoctrl, hdb, hp]
    · simp [Updated.ServerState.request_action, hnoctrl, hdb, hp]
    · intro w hw
      cases hw
      simp [Updated.ServerState.request_action, hnoctrl, hdb, hp]
    · intro e he
      cases he
  | error e =>
    refine ⟨?_, ?_, ?_, ?_, ?_⟩
    · simp [Updated.ServerState.request_action, hnoctrl, hdb, hp]
    · simp [Updated.ServerState.request_action, hnoctrl, hdb, hp]
    · simp [Updated.ServerState.request_action, hnoctrl, hdb, hp]
    · intro w hw
      cases hw
    · intro e2 he2
      cases he2
      simp [Updated.ServerState.request_action, hnoctrl, hdb, hp]

/-- Witness for C8 on a one-agent database with an empty controller map. -/
theorem C8_request_action_no_controller_witness :
    (Updated.ServerState.request_action ⟨⟨[⟨1, "bob", []⟩]⟩, []⟩
        (fun _ _ => Except.ok "ctrl") true (fun _ _ => Except.ok "done") "bob"
        ⟨"twitter", "post", []⟩).1 = ⟨⟨[⟨1, "bob", []⟩]⟩, []⟩
    ∧ (Updated.ServerState.request_action ⟨⟨[⟨1, "bob", []⟩]⟩, []⟩
        (fun _ _ => Except.ok "ctrl") true (fun _ _ => Except.ok "done") "bob"
        ⟨"twitter", "post", []⟩).2.2 = [(⟨1, "bob", []⟩, ⟨"twitter", "post", []⟩)]
    ∧ (Updated.ServerState.request_action ⟨⟨[⟨1, "bob", []⟩]⟩, []⟩
        (fun _ _ => Except.ok "ctrl") true (fun _ _ => Except.ok "done") "bob"
        ⟨"twitter", "post", []⟩).2.1 = .ok (some "done") := by
  have h := C8_request_action_no_controller ⟨⟨[⟨1, "bob", []⟩]⟩, []⟩
    (fun _ _ => Except.ok "ctrl") (fun _ _ => Except.ok "done") "bob"
    ⟨"twitter", "post", []⟩ ⟨1, "bob", []⟩ rfl rfl
  exact ⟨h.1, h.2.1, h.2.2.2.1 "done" rfl⟩

/-- C9: `SafeAgentConfig.from_internal` removes `private_key` only from
config entries named exactly "sonic" or "ethereum"; a `NetworkConfig` entry
dumped under any other name passes through the sanitizer unchanged, its
`private_key` value appearing verbatim in the output intended for outside
consumption. -/
theorem C9_sanitize_only_sonic_ethereum
    (a : AgentConfig) (items : List ConfigItem) (ha : a.config = some items)
    (i : Nat) (nc : NetworkConfig) (hi : items[i]? = some (.network nc)) :
    (∀ cfg : ConfigDump, cfg.name ≠ some "sonic" → cfg.name ≠ some "ethereum" →
      sanitize_cfg cfg = cfg)
    ∧ from_internal a = some (from_internal_config (items.map dumpConfigItem))
    ∧ (dumpConfigItem (.network nc)).private_key = some nc.private_key
    ∧ (nc.name ≠ "sonic" → nc.name ≠ "ethereum" →
        (from_internal_config (items.map dumpConfigItem))[i]?
          = some (dumpConfigItem (.network nc)))
    ∧ ((nc.name = "sonic" ∨ nc.name = "ethereum") →
        (from_internal_config (items.map dumpConfigItem))[i]?
          = some { name := some nc.name, network := nc.network, rpc := nc.rpc,
                   private_key := none, other := [] }) := by
  refine ⟨?_, ?_, rfl, ?_, ?_⟩
  · intro cfg h1 h2
    simp [sanitize_cfg, h1, h2]
  · simp [from_internal, ha]
  · intro h1 h2
    simp only [from_internal_config, List.getElem?_map, hi, Option.map_some]
    simp [sanitize_cfg, dumpConfigItem, h1, h2]
  · intro h
    simp only [from_internal_config, List.getElem?_map, hi, Option.map_some]
    rcases h with h | h <;> simp [sanitize_cfg, dumpConfigItem, h]

/-- Witness for C9: a "solana" network entry keeps its private key while a
"sonic" entry loses it. -/
theorem C9_sanitize_only_sonic_ethereum_witness :
    from_internal sampleAgent = some [solanaDump, sonicSanitizedDump] := by
  have h := C9_sanitize_only_sonic_ethereum sampleAgent [solanaItem, sonicItem] rfl 0
    ⟨"solana", none, none, "SECRET"⟩ rfl
  rw [h.2.1]
  decide

/-- C10: in the updated registry, `get_agent`, `update_agent` and
`delete_agent` dispatch on `int(agent_id)` first: every key that parses as an
integer takes the ID-based database path, with no name normalization and no
name lookup; consequently when no row carries that ID the operations fail
even if an agent's stored name is exactly that numeric string. -/
theorem C10_numeric_keys_use_id_lookup (st : Updated.ServerState) (k : String)
    (n : Int) (d : List (String × String)) (h : pyParseInt k = some n) :
    st.get_agent k = get_agent_by_id st.db n
    ∧ st.update_agent k d
        = ({ st with db := (db_update_agent st.db n d).1 }, (db_update_agent st.db n d).2)
    ∧ st.delete_agent k
        = ({ st with db := (db_delete_agent st.db n).1 }, (db_delete_agent st.db n).2)
    ∧ (get_agent_by_id st.db n = none →
        st.get_agent k = none
        ∧ st.update_agent k d = (st, none)
        ∧ st.delete_agent k = (st, false)) := by
  refine ⟨?_, ?_, ?_, ?_⟩
  · simp [Updated.ServerState.get_agent, h]
  · simp [Updated.ServerState.update_agent, h]
  · simp [Updated.ServerState.delete_agent, h]
  · intro hid
    refine ⟨?_, ?_, ?_⟩
    · simp [Updated.ServerState.get_agent, h, hid]
    · simp [Updated.ServerState.update_agent, h, db_update_agent, hid]
    · simp [Updated.ServerState.delete_agent, h, db_delete_agent, hid]

/-- Witness for C10: an agent stored under the literal name "123" with row ID
7 is unreachable through key "123", which takes the ID path and finds no row
with ID 123. -/
theorem C10_numeric_keys_use_id_lookup_witness :
    Updated.ServerState.get_agent ⟨⟨[⟨7, "123", []⟩]⟩, []⟩ "123" = none
    ∧ Updated.ServerState.delete_agent ⟨⟨[⟨7, "123", []⟩]⟩, []⟩ "123"
        = (⟨⟨[⟨7, "123", []⟩]⟩, []⟩, false)
    ∧ get_agent_by_name (⟨[⟨7, "123", []⟩]⟩ : Database) "123" = some ⟨7, "123", []⟩ := by
  have h := C10_numeric_keys_use_id_lookup ⟨⟨[⟨7, "123", []⟩]⟩, []⟩ "123" 123 []
    (by decide)
  have hid : get_agent_by_id (⟨[⟨7, "123", []⟩]⟩ : Database) 123 = none := by decide
  exact ⟨(h.2.2.2 hid).1, (h.2.2.2 hid).2.2, by decide⟩

end ZerePy
